import Mathlib

/-!
Verification of the DM-plz permission-negotiation core.

This file shallowly embeds the permission hook of `server/src/permission-hook.ts`
together with the relevant pieces of `server/src/providers/telegram.ts` and
`server/src/providers/discord.ts`, and proves or refutes the frozen claims
about the negotiation protocol, the user lock, the cascade-reject window,
the rejection-reason sub-dialog, masking and log rotation.

Conventions of the embedding:
* machine integers and JS numbers are modelled as `Nat` (all quantities
  involved — timestamps, timeouts, sizes — are non-negative in the source);
  `Math.max(a - b, 0)` coincides with truncated `Nat` subtraction;
* fallible steps (`throw` in TypeScript) are modelled with `Except String`;
* effectful runs are modelled as pure functions from an environment that
  records what each external step would do, returning the emitted events in
  program order.
-/

/-- `RejectReasonSource` from `types.ts`: provenance of a rejection reason. -/
inductive RejectReasonSource
  | user_input
  | explicit_skip
  | timeout
deriving DecidableEq, Repr

/-- `RejectReasonResult` from the providers: a reason with its provenance. -/
structure RejectReasonResult where
  reason : String
  reasonSource : RejectReasonSource
deriving DecidableEq, Repr

/-- `PermissionResponse` from `types.ts`: the provider's terminal decision. -/
inductive PermissionResponse
  | approve
  | approve_session
  | reject (reason : String) (reasonSource : RejectReasonSource)
deriving DecidableEq, Repr

/-- `REJECT_CASCADE_WINDOW_MS` from `permission-hook.ts`. -/
def REJECT_CASCADE_WINDOW_MS : Nat := 5 * 1000

/-- `RejectCascadeState` from `permission-hook.ts`. -/
structure RejectCascadeState where
  createdAt : Nat
  reason : String
  reasonSource : RejectReasonSource
  requestId : String
  toolName : String
deriving DecidableEq, Repr

/-- Character-level model of JavaScript `String.prototype.trim`: drop
whitespace from both ends. -/
def trimChars (cs : List Char) : List Char :=
  ((cs.dropWhile Char.isWhitespace).reverse.dropWhile Char.isWhitespace).reverse

/-- `trim` over strings, via `trimChars`. -/
def trimStr (s : String) : String :=
  String.mk (trimChars s.toList)

/-- Character-level model of JavaScript `String.prototype.toLowerCase`. -/
def toLowerStr (s : String) : String :=
  String.mk (s.toList.map Char.toLower)

/-- `normalizeRejectReason` from `permission-hook.ts`: trim, then plain
truncation to `maxChars` characters. -/
def normalizeRejectReason (reason : String) (maxChars : Nat) : String :=
  let trimmed := trimStr reason
  if trimmed.length ≤ maxChars then trimmed
  else trimmed.take maxChars

/-- `resolveReasonSource` from `permission-hook.ts`. -/
def resolveReasonSource (reason : String) (reasonSource : RejectReasonSource) :
    RejectReasonSource :=
  if reasonSource = .timeout then .timeout
  else if reasonSource = .user_input ∧ reason.length = 0 then .explicit_skip
  else reasonSource

/-- `buildDenyMessage` from `permission-hook.ts`. -/
def buildDenyMessage (reason : String) (reasonSource : RejectReasonSource) : String :=
  if reasonSource = .timeout then
    "User rejected the request. (No reason provided: timeout)"
  else if reasonSource = .explicit_skip ∨ reason.length = 0 then
    "User rejected the request. (No reason provided)"
  else
    "User rejected the request. Reason: " ++ reason

/-- `maskToken` from `permission-hook.ts`: full marker for short values,
first 4 and last 4 characters with an elided middle otherwise. -/
def maskToken (token : String) : String :=
  if token.length ≤ 8 then "***"
  else token.take 4 ++ "..." ++ token.drop (token.length - 4)

/-- ASCII model of the `\s` character class used by the masking regexes. -/
def isSpaceChar (c : Char) : Bool :=
  c = ' ' || c = '\t' || c = '\n' || c = '\r'

/-- Case-insensitive character comparison (the `i` regex flag). -/
def lowerEq (c d : Char) : Bool :=
  c.toLower = d.toLower

/-- Match a literal word case-insensitively at the head of the input,
returning the actually matched characters (original case) and the rest. -/
def matchWord : List Char → List Char → Option (List Char × List Char)
  | [], cs => some ([], cs)
  | _ :: _, [] => none
  | k :: ks, c :: cs =>
    if lowerEq c k then
      match matchWord ks cs with
      | some (m, r) => some (c :: m, r)
      | none => none
    else none

/-- Match `word1[_-]?word2` (e.g. `api[_-]?key`) at the head of the input,
with the greedy-then-backtrack behaviour of the `?` quantifier. -/
def matchSepWord (w1 w2 : String) (cs : List Char) : Option (List Char × List Char) :=
  match matchWord w1.toList cs with
  | none => none
  | some (m1, rest) =>
    match rest with
    | [] => none
    | c :: rest' =>
      if c = '_' || c = '-' then
        match matchWord w2.toList rest' with
        | some (m2, r) => some (m1 ++ c :: m2, r)
        | none =>
          match matchWord w2.toList rest with
          | some (m2, r) => some (m1 ++ m2, r)
          | none => none
      else
        match matchWord w2.toList rest with
        | some (m2, r) => some (m1 ++ m2, r)
        | none => none

/-- The key alternation of `keyValuePattern` in `maskSensitiveText`:
`api[_-]?key|token|password|secret|access[_-]?key|authorization`, tried in
order at the current position. -/
def matchSecretKey (cs : List Char) : Option (List Char × List Char) :=
  match matchSepWord "api" "key" cs with
  | some r => some r
  | none =>
    match matchWord "token".toList cs with
    | some r => some r
    | none =>
      match matchWord "password".toList cs with
      | some r => some r
      | none =>
        match matchWord "secret".toList cs with
        | some r => some r
        | none =>
          match matchSepWord "access" "key" cs with
          | some r => some r
          | none => matchWord "authorization".toList cs

/-- After a secret-ish key: `\s*[:=]\s*([^\s,]+)` — optional whitespace, a
single `:` or `=`, optional whitespace, then a non-empty maximal run of
characters that are neither whitespace nor a comma. Returns the captured
value and the rest of the input. -/
def matchKeyValueTail (cs : List Char) : Option (List Char × List Char) :=
  let cs1 := cs.dropWhile isSpaceChar
  match cs1 with
  | [] => none
  | c :: cs2 =>
    if c = ':' || c = '=' then
      let cs3 := cs2.dropWhile isSpaceChar
      let v := cs3.takeWhile (fun d => !(isSpaceChar d || d = ','))
      if v.isEmpty then none else some (v, cs3.drop v.length)
    else none

/-- First replacement pass of `maskSensitiveText` (`keyValuePattern` with the
`g` flag): scan left to right, replacing each `key[:=]value` occurrence with
`key=maskToken(value)` and resuming after the match. `fuel` bounds the number
of scan steps; each step consumes at least one character, so fuel equal to
the input length is exact. -/
def scanKeyValue : Nat → List Char → List Char
  | 0, cs => cs
  | _ + 1, [] => []
  | fuel + 1, c :: cs =>
    match matchSecretKey (c :: cs) with
    | some (key, rest1) =>
      match matchKeyValueTail rest1 with
      | some (v, rest2) =>
        key ++ '=' :: (maskToken (String.mk v)).toList ++ scanKeyValue fuel rest2
      | none => c :: scanKeyValue fuel cs
    | none => c :: scanKeyValue fuel cs

/-- `[A-Fa-f0-9]`, the hex alternative of `longTokenPattern`. -/
def isHexChar (c : Char) : Bool :=
  ('0' ≤ c && c ≤ '9') || ('a' ≤ c && c ≤ 'f') || ('A' ≤ c && c ≤ 'F')

/-- `[A-Za-z0-9+/=]`, the base64-ish alternative of `longTokenPattern`. -/
def isB64Char (c : Char) : Bool :=
  c.isAlpha || c.isDigit || c = '+' || c = '/' || c = '='

/-- Second replacement pass of `maskSensitiveText` (`longTokenPattern` with
the `g` flag): any maximal hex run of length ≥ 32, else any maximal
base64-ish run of length ≥ 32, is replaced by `maskToken` of the run. -/
def scanLongToken : Nat → List Char → List Char
  | 0, cs => cs
  | _ + 1, [] => []
  | fuel + 1, c :: cs =>
    let hexRun := (c :: cs).takeWhile isHexChar
    if 32 ≤ hexRun.length then
      (maskToken (String.mk hexRun)).toList ++
        scanLongToken fuel ((c :: cs).drop hexRun.length)
    else
      let b64Run := (c :: cs).takeWhile isB64Char
      if 32 ≤ b64Run.length then
        (maskToken (String.mk b64Run)).toList ++
          scanLongToken fuel ((c :: cs).drop b64Run.length)
      else c :: scanLongToken fuel cs

/-- `maskSensitiveText` from `permission-hook.ts`: the key/value pass followed
by the long-token pass. -/
def maskSensitiveText (reason : String) : String :=
  let l1 := reason.toList
  let l2 := scanKeyValue l1.length l1
  String.mk (scanLongToken l2.length l2)

/-- `RejectLogEntry`: the object serialized by `buildRejectLogLine`. -/
structure RejectLogEntry where
  timestamp : String
  provider : String
  decision : String
  request_id : String
  tool_name : String
  cwd : String
  reason : String
  reason_source : RejectReasonSource
deriving DecidableEq, Repr

/-- `buildRejectLogLine` from `permission-hook.ts`, at the level of the
serialized object: the persisted `reason` field is the masked reason, the
decision is always `deny`. The wall-clock timestamp is a parameter. -/
def buildRejectLogLine (timestamp provider requestId toolName cwd : String)
    (reason : String) (reasonSource : RejectReasonSource) : RejectLogEntry :=
  { timestamp := timestamp
    provider := provider
    decision := "deny"
    request_id := requestId
    tool_name := toolName
    cwd := cwd
    reason := maskSensitiveText reason
    reason_source := reasonSource }

/-- `behavior` field of the hook output decision. -/
inductive Behavior
  | allow
  | deny
deriving DecidableEq, Repr

/-- `decision` part of `PermissionHookOutput`. -/
structure HookDecision where
  behavior : Behavior
  message : Option String
  interrupt : Option Bool
deriving DecidableEq, Repr

/-- `PermissionHookOutput` from `permission-hook.ts` (the JSON printed by
`outputResult`). -/
structure PermissionHookOutput where
  decision : HookDecision
  systemMessage : Option String
deriving DecidableEq, Repr

/-- `outputResult` from `permission-hook.ts`. `message || 'User rejected the
request.'` treats both a missing and an empty message as the default. -/
def outputResult (approved : Bool) (message : Option String)
    (interrupt : Option Bool) (systemMessage : Option String) :
    PermissionHookOutput :=
  { decision :=
      { behavior := if approved then .allow else .deny
        message :=
          if approved then none
          else some (match message with
            | some m => if m = "" then "User rejected the request." else m
            | none => "User rejected the request.")
        interrupt := if approved then none else interrupt }
    systemMessage := systemMessage }

/-- `buildRejectionSystemMessage` from `permission-hook.ts`. -/
def buildRejectionSystemMessage (reason : String)
    (reasonSource : RejectReasonSource) : String :=
  let trimmedReason := trimStr reason
  if reasonSource = .user_input ∧ 0 < trimmedReason.length then
    "사용자가 권한 요청을 거부했습니다.\n새 지시: " ++ trimmedReason ++
      "\n이 지시를 새로운 사용자 요청으로 간주하고, 현재 시도하던 작업과 툴 호출을 중단한 뒤 다시 계획하세요."
  else
    "사용자가 권한 요청을 거부했습니다.\n사유가 없으므로 현재 작업을 중단하고 다음 지시를 AskUserQuestion으로 요청하세요."

/-- Observable state of the cascade-state file for one lock key. -/
inductive CascadeFile
  | absent
  | unparsable
  | parsedNonFinite
  | parsed (st : RejectCascadeState)
deriving DecidableEq, Repr

/-- `readCascadeState` from `permission-hook.ts`: absent, unparsable or
non-finite-`createdAt` files yield `none`; a parsed state older than the
window is expired and yields `none`; otherwise the state is returned. -/
def readCascadeState (file : CascadeFile) (windowMs now : Nat) :
    Option RejectCascadeState :=
  match file with
  | .absent => none
  | .unparsable => none
  | .parsedNonFinite => none
  | .parsed st => if windowMs < now - st.createdAt then none else some st

/-- `writeCascadeState` from `permission-hook.ts`, at the file level. -/
def writeCascadeState (st : RejectCascadeState) : CascadeFile :=
  .parsed st

/-- `getRequestId` from `permission-hook.ts`: the caller-supplied
`tool_use_id` when present, else the generated `request-<ts>-<random>` id
(supplied here as a parameter). -/
def getRequestId (toolUseId : Option String) (generated : String) : String :=
  match toolUseId with
  | some id => id
  | none => generated

/-- The stdin payload fields of `PermissionRequestInput` that the negotiation
logic inspects. -/
structure HookInput where
  tool_name : String
  tool_use_id : Option String
  cwd : String
deriving DecidableEq, Repr

/-- The configuration values of `ServerConfig` consumed by the negotiation
logic (rotation thresholds are `Int` because `parseInt` may yield negative
values and the code branches on `maxFiles <= 0`). -/
structure HookConfig where
  provider : String
  questionTimeoutMs : Nat
  rejectReasonTimeoutMs : Nat
  rejectReasonMaxChars : Nat
  rejectReasonLogRotateBytes : Int
  rejectReasonLogMaxFiles : Int
  rejectReasonNoReasonKeywords : List String
deriving DecidableEq, Repr

/-- Events emitted by one run of the permission hook, in program order. -/
inductive Event
  | outputAllow
  | outputDeny (message : String)
  | lockAcquired
  | lockReleased
  | providerInvoked
  | logAppended (entry : RejectLogEntry)
  | logAppendFailed
  | cascadeWritten (st : RejectCascadeState)
  | cascadeCleared
  | sessionCacheSaved
deriving DecidableEq, Repr

/-- Environment of one hook run: what each external step performed by `main`
after reading stdin would return (or throw). -/
structure HookEnv where
  parseInput : Except String HookInput
  sessionCacheHit : Bool
  configLoad : Except String HookConfig
  getInfo : Except String Unit
  lockAcquire : Except String Unit
  cascadeFile : CascadeFile
  nowAtCascadeRead : Nat
  providerResponse : Except String PermissionResponse
  logAppend : Except String Unit
  cascadeWrite : Except String Unit
  nowAtCascadeWrite : Nat
  generatedRequestId : String
  logTimestamp : String

/-- Result of one hook run: emitted events, the printed output, the process
exit code, and whether the fail-open catch handler ran. -/
structure RunResult where
  events : List Event
  output : PermissionHookOutput
  exitCode : Nat
  caught : Bool
deriving DecidableEq, Repr

/-- The catch-all handler of `main`: on any thrown error, emit an `allow`
output and exit 0 (fail-open). -/
def failOpen (events : List Event) : RunResult :=
  { events := events ++ [.outputAllow]
    output := outputResult true none none none
    exitCode := 0
    caught := true }

/-- A normal (uncaught) run finishing with the given events and output. -/
def finishRun (events : List Event) (output : PermissionHookOutput) : RunResult :=
  { events := events, output := output, exitCode := 0, caught := false }

/-- `main` from `permission-hook.ts`, from the point where stdin has been
read: parse, AskUserQuestion auto-allow, session-cache auto-allow, config
load, provider info, user-lock acquisition, cascade check, provider round
trip (the lock is released in the `finally` as soon as it returns), then
decision processing — reject path: normalize, log append (errors swallowed),
cascade write, deny output. Every thrown step lands in `failOpen`. -/
def mainModel (env : HookEnv) : RunResult :=
  match env.parseInput with
  | .error _ => failOpen []
  | .ok input =>
    if input.tool_name = "AskUserQuestion" then
      finishRun [.outputAllow] (outputResult true none none none)
    else if env.sessionCacheHit then
      finishRun [.outputAllow] (outputResult true none none none)
    else
      match env.configLoad with
      | .error _ => failOpen []
      | .ok config =>
        match env.getInfo with
        | .error _ => failOpen []
        | .ok _ =>
          match env.lockAcquire with
          | .error _ => failOpen []
          | .ok _ =>
            match readCascadeState env.cascadeFile REJECT_CASCADE_WINDOW_MS
                env.nowAtCascadeRead with
            | some st =>
              let denyMessage := buildDenyMessage st.reason st.reasonSource
              finishRun [.lockAcquired, .outputDeny denyMessage, .lockReleased]
                (outputResult false (some denyMessage) none none)
            | none =>
              match env.providerResponse with
              | .error _ =>
                failOpen [.lockAcquired, .providerInvoked, .lockReleased]
              | .ok resp =>
                let pre := [Event.lockAcquired, Event.providerInvoked,
                  Event.lockReleased]
                match resp with
                | .approve =>
                  finishRun (pre ++ [.cascadeCleared, .outputAllow])
                    (outputResult true none none none)
                | .approve_session =>
                  finishRun (pre ++ [.sessionCacheSaved, .cascadeCleared,
                    .outputAllow]) (outputResult true none none none)
                | .reject reason source =>
                  let requestId := getRequestId input.tool_use_id
                    env.generatedRequestId
                  let normalizedReason := normalizeRejectReason reason
                    config.rejectReasonMaxChars
                  let finalReasonSource := resolveReasonSource normalizedReason
                    source
                  let denyMessage := buildDenyMessage normalizedReason
                    finalReasonSource
                  let sysMsg := buildRejectionSystemMessage normalizedReason
                    finalReasonSource
                  let logEvents :=
                    match env.logAppend with
                    | .ok _ => [Event.logAppended (buildRejectLogLine
                        env.logTimestamp config.provider requestId
                        input.tool_name input.cwd normalizedReason
                        finalReasonSource)]
                    | .error _ => [Event.logAppendFailed]
                  match env.cascadeWrite with
                  | .error _ => failOpen (pre ++ logEvents)
                  | .ok _ =>
                    let st : RejectCascadeState :=
                      { createdAt := env.nowAtCascadeWrite
                        reason := normalizedReason
                        reasonSource := finalReasonSource
                        requestId := requestId
                        toolName := input.tool_name }
                    finishRun
                      (pre ++ logEvents ++ [.cascadeWritten st,
                        .outputDeny denyMessage])
                      (outputResult false (some denyMessage) none
                        (some sysMsg))

/-- Error message thrown by `acquireUserLock` when the wait bound is
exhausted. -/
def lockTimeoutMsg : String := "Timeout waiting for permission lock"

/-- Error message thrown by the providers' `requestPermission` when the
operator never answers before the deadline. -/
def decisionTimeoutMsg : String := "Timeout waiting for permission response"

/-- What one poll tick of `acquireUserLock` observes about the lock token
file: exclusive creation succeeds (`free`), the token exists with the given
age (`held`), `statSync` throws (`statError`), or `writeFileSync` throws a
non-`EEXIST` error that is rethrown (`writeError`). -/
inductive LockTickObs
  | free
  | held (ageMs : Nat)
  | statError
  | writeError (msg : String)
deriving DecidableEq, Repr

/-- The polling loop of `acquireUserLock`: the while guard compares the
elapsed time (tick `i` runs at `200 * i` ms, one fixed 200 ms sleep per
failed attempt) against `timeoutMs`. Returns the tick at which the token was
created, or the thrown error, together with the list of ticks at which a
stale token (age beyond `timeoutMs`) was force-removed. `fuel` bounds the
recursion; `timeoutMs / 200 + 1` ticks always outlast the guard. -/
def acquireLoop (env : Nat → LockTickObs) (timeoutMs : Nat) :
    Nat → Nat → Except String Nat × List Nat
  | 0, _ => (.error lockTimeoutMsg, [])
  | fuel + 1, i =>
    if 200 * i < timeoutMs then
      match env i with
      | .free => (.ok i, [])
      | .writeError msg => (.error msg, [])
      | .held age =>
        if timeoutMs < age then
          let r := acquireLoop env timeoutMs fuel (i + 1)
          (r.1, i :: r.2)
        else acquireLoop env timeoutMs fuel (i + 1)
      | .statError => acquireLoop env timeoutMs fuel (i + 1)
    else (.error lockTimeoutMsg, [])

/-- `acquireUserLock` from `permission-hook.ts`, over an observation
environment. -/
def acquireUserLockModel (env : Nat → LockTickObs) (timeoutMs : Nat) :
    Except String Nat × List Nat :=
  acquireLoop env timeoutMs (timeoutMs / 200 + 1) 0

/-- `fs.unlinkSync` on the lock token: fails when the token is absent. -/
def unlinkLockToken (w : Option Nat) : Except String (Option Nat) :=
  match w with
  | some _ => .ok none
  | none => .error "ENOENT"

/-- The release callback returned by `acquireUserLock`: unlink the token,
swallowing any failure (the state is left as it was on failure). -/
def releaseUserLock (w : Option Nat) : Option Nat :=
  match unlinkLockToken w with
  | .ok w' => w'
  | .error _ => w

/-- The rejection-log directory as a map from generation index to file
contents: index 0 is the active file, index `n ≥ 1` is `<path>.n`. -/
def LogFs : Type := Nat → Option (List String)

/-- Byte size contributed by one logged line (the line plus its newline). -/
def lineBytes (l : String) : Nat := l.length + 1

/-- Size of a log file, as the sum of its line sizes. -/
def fileSizeOf (lines : List String) : Nat := (lines.map lineBytes).sum

/-- `fs.renameSync(src, dst)` guarded by `fs.existsSync(src)`: move the
source generation onto the destination when the source exists, else leave
the directory unchanged. -/
def renameGen (fs : LogFs) (src dst : Nat) : LogFs :=
  match fs src with
  | some content => fun i => if i = dst then some content
      else if i = src then none else fs i
  | none => fs

/-- `fs.unlinkSync` guarded by `fs.existsSync`: drop a generation. -/
def deleteGen (fs : LogFs) (idx : Nat) : LogFs :=
  fun i => if i = idx then none else fs i

/-- The descending rename loop of `rotateRejectLogIfNeeded`
(`for index = maxFiles - 1; index >= 1; index -= 1`): `shiftGens fs k` first
renames generation `k + 1` to `k + 2`, then continues downwards, ending with
generation 1 renamed to 2. -/
def shiftGens (fs : LogFs) : Nat → LogFs
  | 0 => fs
  | k + 1 => shiftGens (renameGen fs (k + 1) (k + 2)) k

/-- `rotateRejectLogIfNeeded` from `permission-hook.ts`: nothing to do when
the active file is absent or within the threshold; truncate the active file
when `maxFiles <= 0`; otherwise delete generation `maxFiles`, shift the
surviving generations up by one, and move the active file to generation 1. -/
def rotateRejectLogIfNeeded (fs : LogFs) (rotateBytes maxFiles : Int) : LogFs :=
  match fs 0 with
  | none => fs
  | some lines =>
    if (fileSizeOf lines : Int) ≤ rotateBytes then fs
    else if maxFiles ≤ 0 then fun i => if i = 0 then some [] else fs i
    else
      let m := maxFiles.toNat
      renameGen (shiftGens (deleteGen fs m) (m - 1)) 0 1

/-- The rotate-then-append body of `appendRejectLog`: rotation runs first,
then the new line is appended to the (possibly fresh) active file. -/
def appendRejectLogFs (fs : LogFs) (rotateBytes maxFiles : Int)
    (line : String) : LogFs :=
  let fs' := rotateRejectLogIfNeeded fs rotateBytes maxFiles
  fun i => if i = 0 then some (((fs' 0).getD []) ++ [line]) else fs' i

/-- A Telegram `callback_query` as inspected by the polling loops. -/
structure TgCallbackQuery where
  chatId : String
  messageId : Nat
  data : String
deriving DecidableEq, Repr

/-- A Telegram update: a button press or a chat message (with the facts the
filters inspect: chat, message id, text, private-chat flag, bot mention). -/
inductive TgUpdate
  | callback (q : TgCallbackQuery)
  | message (chatId : String) (messageId : Nat) (text : String)
      (isPrivate : Bool) (mentioned : Bool)
deriving DecidableEq, Repr

/-- The update-scan of the decision loop in
`TelegramProvider.requestPermission`: the first callback query addressed to
the permission chat and to the just-sent prompt message whose data is one of
the three decisions wins; anything else is skipped. -/
def findDecision (sentMessageId : Nat) (permissionChatId : String) :
    List TgUpdate → Option String
  | [] => none
  | .callback q :: rest =>
    if q.chatId = permissionChatId ∧ q.messageId = sentMessageId ∧
        (q.data = "approve" ∨ q.data = "approve_session" ∨ q.data = "reject")
    then some q.data
    else findDecision sentMessageId permissionChatId rest
  | .message _ _ _ _ _ :: rest =>
    findDecision sentMessageId permissionChatId rest

/-- The update-scan of `TelegramProvider.waitForRejectReason`: a
`reject_no_reason` button press on the reason prompt is an explicit skip; a
later message in the reason chat (private, or mentioning the bot) is a typed
reason — with no keyword comparison of any kind. -/
def findReasonInputTg (promptMessageId : Nat) (chatId : String) :
    List TgUpdate → Option RejectReasonResult
  | [] => none
  | .callback q :: rest =>
    if q.chatId = chatId ∧ q.messageId = promptMessageId ∧
        q.data = "reject_no_reason"
    then some ⟨"", .explicit_skip⟩
    else findReasonInputTg promptMessageId chatId rest
  | .message mChatId mId text isPrivate mentioned :: rest =>
    if mChatId = chatId then
      if mId ≤ promptMessageId then findReasonInputTg promptMessageId chatId rest
      else if ¬isPrivate ∧ ¬mentioned then
        findReasonInputTg promptMessageId chatId rest
      else some ⟨text, .user_input⟩
    else findReasonInputTg promptMessageId chatId rest

/-- One iteration of a Telegram polling loop: the elapsed time when the while
guard is evaluated, the updates returned by `getUpdates`, and the elapsed
time at the end-of-iteration timeout check. -/
structure TgRound where
  elapsedBefore : Nat
  updates : List TgUpdate
  elapsedAfter : Nat
deriving DecidableEq, Repr

/-- `TelegramProvider.waitForRejectReason`: poll updates within `timeoutMs`;
return the first accepted input, else a `timeout` result once the deadline
passes (also when the round trace ends, since no further input can then
arrive before the deadline). -/
def waitForRejectReasonTg (promptMessageId timeoutMs : Nat) (chatId : String) :
    List TgRound → RejectReasonResult
  | [] => ⟨"", .timeout⟩
  | r :: rest =>
    if r.elapsedBefore < timeoutMs then
      match findReasonInputTg promptMessageId chatId r.updates with
      | some res => res
      | none =>
        if timeoutMs ≤ r.elapsedAfter then ⟨"", .timeout⟩
        else waitForRejectReasonTg promptMessageId timeoutMs chatId rest
    else ⟨"", .timeout⟩

/-- `TelegramProvider.resolveRejectReasonChatId`. -/
def resolveRejectReasonChatId (configChatId permissionChatId : String) : String :=
  if permissionChatId ≠ configChatId then configChatId else permissionChatId

/-- The effective reason-dialog wait bound computed in the reject branch of
`TelegramProvider.requestPermission`:
`Math.min(rejectReasonTimeoutMs, Math.max(timeoutMs - elapsed, 0))` (the
clamp to 0 is `Nat` truncated subtraction). -/
def effectiveReasonWait (rejectReasonTimeoutMs timeoutMs elapsed : Nat) : Nat :=
  min rejectReasonTimeoutMs (timeoutMs - elapsed)

/-- Environment of the reason sub-dialog: the outcome of the (up to two)
reason-prompt sends and the polled rounds. -/
structure TgReasonEnv where
  promptSendPrimary : Option Nat
  promptSendFallback : Option Nat
  reasonRounds : List TgRound
deriving DecidableEq, Repr

/-- The reject branch of `TelegramProvider.requestPermission`: compute the
wait bound, send the reason prompt (falling back to the permission chat when
the reason chat differs and the first send failed), then wait for the reason
when the bound is positive, else produce a `timeout` result immediately. A
prompt that cannot be sent at all folds into an immediate `explicit_skip`
rejection. -/
def telegramRejectFlow (configChatId permissionChatId : String)
    (rejectReasonTimeoutMs timeoutMs elapsedAtReject : Nat)
    (renv : TgReasonEnv) : PermissionResponse :=
  let waitTimeoutMs := effectiveReasonWait rejectReasonTimeoutMs timeoutMs
    elapsedAtReject
  let reasonChatId := resolveRejectReasonChatId configChatId permissionChatId
  match renv.promptSendPrimary with
  | some promptId =>
    let result :=
      if 0 < waitTimeoutMs then
        waitForRejectReasonTg promptId waitTimeoutMs reasonChatId
          renv.reasonRounds
      else ⟨"", .timeout⟩
    .reject result.reason result.reasonSource
  | none =>
    if reasonChatId ≠ permissionChatId then
      match renv.promptSendFallback with
      | some promptId =>
        let result :=
          if 0 < waitTimeoutMs then
            waitForRejectReasonTg promptId waitTimeoutMs permissionChatId
              renv.reasonRounds
          else ⟨"", .timeout⟩
        .reject result.reason result.reasonSource
      | none => .reject "" .explicit_skip
    else .reject "" .explicit_skip

/-- A decision round additionally records the time observed inside the reject
branch (used for the remaining-deadline computation). -/
structure TgDecisionRound where
  elapsedBefore : Nat
  updates : List TgUpdate
  elapsedAfter : Nat
  elapsedAtReject : Nat
deriving DecidableEq, Repr

/-- The decision loop of `TelegramProvider.requestPermission`: poll for a
matching button press within `timeoutMs`; approve / approve-session return
directly; reject enters the reason flow; once the deadline passes (or the
round trace ends, no decision signal ever arriving), the prompt is marked
expired best-effort and a decision-timeout error is thrown. -/
def requestPermissionTg (configChatId permissionChatId : String)
    (sentMessageId rejectReasonTimeoutMs timeoutMs : Nat)
    (renv : TgReasonEnv) : List TgDecisionRound → Except String PermissionResponse
  | [] => .error decisionTimeoutMsg
  | r :: rest =>
    if r.elapsedBefore < timeoutMs then
      match findDecision sentMessageId permissionChatId r.updates with
      | some d =>
        if d = "approve" then .ok .approve
        else if d = "approve_session" then .ok .approve_session
        else .ok (telegramRejectFlow configChatId permissionChatId
          rejectReasonTimeoutMs timeoutMs r.elapsedAtReject renv)
      | none =>
        if timeoutMs ≤ r.elapsedAfter then .error decisionTimeoutMsg
        else requestPermissionTg configChatId permissionChatId sentMessageId
          rejectReasonTimeoutMs timeoutMs renv rest
    else .error decisionTimeoutMsg

/-- `DiscordProvider.normalizeKeyword`: trim then lowercase. -/
def normalizeKeyword (value : String) : String :=
  toLowerStr (trimStr value)

/-- A Discord message as inspected by the reason poll. -/
structure DcMessage where
  authorId : String
  content : String
deriving DecidableEq, Repr

/-- The message scan of `DiscordProvider.waitForRejectReason`: the first
message from the rejecting user decides — a normalized match against the
configured no-reason keywords is an explicit skip with an empty reason, any
other content is a typed reason. -/
def findReasonInputDc (expectedUserId : String)
    (normalizedKeywords : List String) : List DcMessage → Option RejectReasonResult
  | [] => none
  | m :: rest =>
    if m.authorId ≠ expectedUserId then
      findReasonInputDc expectedUserId normalizedKeywords rest
    else
      let content := trimStr m.content
      if normalizeKeyword content ∈ normalizedKeywords then
        some ⟨"", .explicit_skip⟩
      else some ⟨content, .user_input⟩

/-- One iteration of the Discord reason poll: elapsed time at the while
guard, the fetch result (API errors are caught and skipped), and the elapsed
time at the end-of-iteration timeout check. -/
structure DcReasonRound where
  elapsedBefore : Nat
  fetch : Except String (List DcMessage)
  elapsedAfter : Nat
deriving Repr

/-- `DiscordProvider.waitForRejectReason`: poll messages after the reason
prompt within `timeoutMs`, comparing contents against the normalized
no-reason keywords; fall to a `timeout` result once the deadline passes. -/
def waitForRejectReasonDc (timeoutMs : Nat) (expectedUserId : String)
    (noReasonKeywords : List String) : List DcReasonRound → RejectReasonResult
  | [] => ⟨"", .timeout⟩
  | r :: rest =>
    if r.elapsedBefore < timeoutMs then
      match r.fetch with
      | .error _ =>
        if timeoutMs ≤ r.elapsedAfter then ⟨"", .timeout⟩
        else waitForRejectReasonDc timeoutMs expectedUserId noReasonKeywords rest
      | .ok messages =>
        match findReasonInputDc expectedUserId
            (noReasonKeywords.map normalizeKeyword) messages with
        | some res => res
        | none =>
          if timeoutMs ≤ r.elapsedAfter then ⟨"", .timeout⟩
          else waitForRejectReasonDc timeoutMs expectedUserId noReasonKeywords
            rest
    else ⟨"", .timeout⟩

/-- Event classifier: a successful log append. -/
def isLogAppended : Event → Bool
  | .logAppended _ => true
  | _ => false

/-- Event classifier: a log-append attempt (successful or failed). -/
def isLogAttempt : Event → Bool
  | .logAppended _ => true
  | .logAppendFailed => true
  | _ => false

/-- Event classifier: a cascade-state write. -/
def isCascadeWritten : Event → Bool
  | .cascadeWritten _ => true
  | _ => false

/-- Event classifier: the user-lock release. -/
def isLockReleased : Event → Bool
  | .lockReleased => true
  | _ => false

/-- Event classifier: the provider round trip (where the decision prompt is
sent). -/
def isProviderInvoked : Event → Bool
  | .providerInvoked => true
  | _ => false

/-- `eventBeforeB p q es` holds when an event satisfying `p` and an event
satisfying `q` both occur in `es` and the first `p`-event precedes the first
`q`-event. -/
def eventBeforeB (p q : Event → Bool) (es : List Event) : Bool :=
  match es.findIdx? p, es.findIdx? q with
  | some i, some j => i < j
  | _, _ => false

/-- The cascade state written by `main` on an operator rejection, as a
function of the run's inputs. -/
def rejectCascadeStateOf (env : HookEnv) (input : HookInput)
    (cfg : HookConfig) (reason : String) (source : RejectReasonSource) :
    RejectCascadeState :=
  let normalizedReason := normalizeRejectReason reason cfg.rejectReasonMaxChars
  { createdAt := env.nowAtCascadeWrite
    reason := normalizedReason
    reasonSource := resolveReasonSource normalizedReason source
    requestId := getRequestId input.tool_use_id env.generatedRequestId
    toolName := input.tool_name }

/-- Sample stdin payload used by the concrete witnesses. -/
def sampleInput : HookInput :=
  { tool_name := "Bash", tool_use_id := some "toolu_01", cwd := "/repo" }

/-- Sample configuration (the source defaults) used by the witnesses. -/
def sampleConfig : HookConfig :=
  { provider := "telegram"
    questionTimeoutMs := 180000
    rejectReasonTimeoutMs := 600000
    rejectReasonMaxChars := 300
    rejectReasonLogRotateBytes := 10485760
    rejectReasonLogMaxFiles := 10
    rejectReasonNoReasonKeywords := ["no_reason"] }

/-- A fully successful environment reaching the provider round trip. -/
def baseEnv : HookEnv :=
  { parseInput := .ok sampleInput
    sessionCacheHit := false
    configLoad := .ok sampleConfig
    getInfo := .ok ()
    lockAcquire := .ok ()
    cascadeFile := .absent
    nowAtCascadeRead := 100000
    providerResponse := .ok .approve
    logAppend := .ok ()
    cascadeWrite := .ok ()
    nowAtCascadeWrite := 101000
    generatedRequestId := "request-0-gen"
    logTimestamp := "2026-02-03T04:05:06.000Z" }

/-- A run in which the operator rejects with a typed reason. -/
def rejectEnv : HookEnv :=
  { baseEnv with providerResponse := .ok (.reject "use version 1.0.5" .user_input) }

/-- A run that hits fresh cascade state left by a previous rejection. -/
def cascadeHitEnv : HookEnv :=
  { baseEnv with
    cascadeFile := .parsed
      { createdAt := 99000
        reason := "use version 1.0.5"
        reasonSource := .user_input
        requestId := "toolu_00"
        toolName := "Bash" } }

/-- Reason-dialog environment with a successfully sent prompt and no polled
input, used by the concrete witnesses. -/
def sampleReasonEnv : TgReasonEnv :=
  { promptSendPrimary := some 8, promptSendFallback := none, reasonRounds := [] }

/-- A rejection-log directory: oversized active file plus two rotated
generations, used by the concrete witnesses. -/
def sampleLogFs : LogFs := fun i =>
  if i = 0 then some ["line-a", "line-b"]
  else if i = 1 then some ["old-1"]
  else if i = 2 then some ["old-2"]
  else none

/-- If every tick within the wait bound observes a held token or a failing
`statSync`, the acquisition loop ends in the lock-timeout error. -/
theorem acquireLoop_held_is_timeout (env : Nat → LockTickObs) (t : Nat)
    (h : ∀ i, 200 * i < t → (∃ a, env i = .held a) ∨ env i = .statError) :
    ∀ fuel i, (acquireLoop env t fuel i).1 = .error lockTimeoutMsg := by
  intro fuel
  induction fuel with
  | zero => intro i; rfl
  | succ n ih =>
    intro i
    unfold acquireLoop
    by_cases hg : 200 * i < t
    · rcases h i hg with ⟨a, ha⟩ | ha
      · by_cases hs : t < a
        · simp [hg, ha, hs, ih]
        · simp [hg, ha, hs, ih]
      · simp [hg, ha, ih]
    · simp [hg]

/-- If no round of the decision loop ever carries a matching decision
callback, `requestPermission` ends in the decision-timeout error. -/
theorem requestPermissionTg_no_decision (configChatId permissionChatId : String)
    (sentMessageId rejectReasonTimeoutMs timeoutMs : Nat) (renv : TgReasonEnv) :
    ∀ rounds, (∀ r ∈ rounds,
      findDecision sentMessageId permissionChatId r.updates = none) →
    requestPermissionTg configChatId permissionChatId sentMessageId
      rejectReasonTimeoutMs timeoutMs renv rounds = .error decisionTimeoutMsg := by
  intro rounds
  induction rounds with
  | nil => intro _; rfl
  | cons r rest ih =>
    intro h
    have hr := h r (List.mem_cons_self r rest)
    unfold requestPermissionTg
    by_cases hg : r.elapsedBefore < timeoutMs
    · by_cases ha : timeoutMs ≤ r.elapsedAfter
      · simp [hg, hr, ha]
      · simp [hg, hr, ha, ih (fun x hx => h x (List.mem_cons_of_mem _ hx))]
    · simp [hg]

/-- C1: exceeding the deadline at any stage surfaces a non-decision to the
caller. (1) Exhausting the user-lock wait bound makes `acquireUserLock` end
in the lock-timeout error; (2) the operator never answering the decision
prompt makes `requestPermission` end in the decision-timeout error; (3) a
thrown error is a value distinct from every decision (`approve`,
`approve_session`, or a `reject`); (4,5) on either error, `main`'s
negotiation performs none of the decision-processing effects — no log
append, no cascade write, no session-cache save, no cascade clear, no deny
output — and lands in the catch handler instead. -/
theorem claim1_deadline_is_nondecision :
    (∀ (env : Nat → LockTickObs) (t : Nat),
      (∀ i, 200 * i < t → (∃ a, env i = .held a) ∨ env i = .statError) →
      (acquireUserLockModel env t).1 = .error lockTimeoutMsg) ∧
    (∀ (configChatId permissionChatId : String)
      (sentMessageId rejectReasonTimeoutMs timeoutMs : Nat)
      (renv : TgReasonEnv) (rounds : List TgDecisionRound),
      (∀ r ∈ rounds,
        findDecision sentMessageId permissionChatId r.updates = none) →
      requestPermissionTg configChatId permissionChatId sentMessageId
        rejectReasonTimeoutMs timeoutMs renv rounds =
          .error decisionTimeoutMsg) ∧
    (∀ (msg : String) (resp : PermissionResponse),
      (Except.error msg : Except String PermissionResponse) ≠ .ok resp) ∧
    (∀ (env : HookEnv) (input : HookInput) (cfg : HookConfig) (msg : String),
      env.parseInput = .ok input → input.tool_name ≠ "AskUserQuestion" →
      env.sessionCacheHit = false → env.configLoad = .ok cfg →
      env.getInfo = .ok () → env.lockAcquire = .error msg →
      (mainModel env).events = [.outputAllow] ∧
        (mainModel env).caught = true) ∧
    (∀ (env : HookEnv) (input : HookInput) (cfg : HookConfig) (msg : String),
      env.parseInput = .ok input → input.tool_name ≠ "AskUserQuestion" →
      env.sessionCacheHit = false → env.configLoad = .ok cfg →
      env.getInfo = .ok () → env.lockAcquire = .ok () →
      readCascadeState env.cascadeFile REJECT_CASCADE_WINDOW_MS
        env.nowAtCascadeRead = none →
      env.providerResponse = .error msg →
      (mainModel env).events =
        [.lockAcquired, .providerInvoked, .lockReleased, .outputAllow] ∧
        (mainModel env).caught = true) := by
  refine ⟨?_, ?_, ?_, ?_, ?_⟩
  · intro env t h
    exact acquireLoop_held_is_timeout env t h _ 0
  · intro a b c d e f rounds h
    exact requestPermissionTg_no_decision a b c d e f rounds h
  · intro msg resp hc
    exact Except.noConfusion hc
  · intro env input cfg msg h1 h2 h3 h4 h5 h6
    constructor <;> simp [mainModel, h1, h2, h3, h4, h5, h6, failOpen]
  · intro env input cfg msg h1 h2 h3 h4 h5 h6 h7 h8
    constructor <;> simp [mainModel, h1, h2, h3, h4, h5, h6, h7, h8, failOpen]

/-- Witness for C1 at concrete inputs: a permanently held lock times out with
the lock-timeout error; a decision loop that never sees a matching button
press times out with the decision-timeout error; that error is distinct from
an approval; and concrete lock-timeout / decision-timeout runs of `main`
perform no decision processing. -/
theorem claim1_deadline_is_nondecision_witness :
    (acquireUserLockModel (fun _ => .held 100) 1000).1 =
      .error lockTimeoutMsg ∧
    requestPermissionTg "42" "42" 7 600000 1000 sampleReasonEnv
      [{ elapsedBefore := 0, updates := [], elapsedAfter := 2000,
         elapsedAtReject := 0 }] = .error decisionTimeoutMsg ∧
    (Except.error decisionTimeoutMsg : Except String PermissionResponse) ≠
      .ok .approve ∧
    ((mainModel { baseEnv with lockAcquire := .error lockTimeoutMsg }).events =
      [.outputAllow] ∧
      (mainModel { baseEnv with
        lockAcquire := .error lockTimeoutMsg }).caught = true) ∧
    ((mainModel { baseEnv with
        providerResponse := .error decisionTimeoutMsg }).events =
      [.lockAcquired, .providerInvoked, .lockReleased, .outputAllow] ∧
      (mainModel { baseEnv with
        providerResponse := .error decisionTimeoutMsg }).caught = true) := by
  refine ⟨?_, ?_, ?_, ?_, ?_⟩
  · exact claim1_deadline_is_nondecision.1 _ 1000 (fun i _ => Or.inl ⟨100, rfl⟩)
  · exact claim1_deadline_is_nondecision.2.1 "42" "42" 7 600000 1000
      sampleReasonEnv _ (by intro r hr; rw [List.mem_singleton.mp hr]; rfl)
  · exact claim1_deadline_is_nondecision.2.2.1 decisionTimeoutMsg .approve
  · exact claim1_deadline_is_nondecision.2.2.2.1 _ sampleInput sampleConfig
      lockTimeoutMsg rfl (by decide) rfl rfl rfl rfl
  · exact claim1_deadline_is_nondecision.2.2.2.2 _ sampleInput sampleConfig
      decisionTimeoutMsg rfl (by decide) rfl rfl rfl rfl rfl rfl

/-- C2: every step of `main` after reading stdin that throws — unparsable
input, missing provider configuration (`loadConfig`), a chat-provider API
error (`getInfo`), lock-acquisition timeout, decision-wait timeout (the
provider round trip), or even a failing cascade-state write on the reject
path — lands in the catch handler, whose emitted decision has behavior
`allow` and whose process exit code is 0: every error path permits the
tool. -/
theorem claim2_fail_open :
    (∀ (env : HookEnv) (e : String), env.parseInput = .error e →
      (mainModel env).output.decision.behavior = .allow ∧
      (mainModel env).exitCode = 0 ∧ (mainModel env).caught = true) ∧
    (∀ (env : HookEnv) (input : HookInput) (e : String),
      env.parseInput = .ok input → input.tool_name ≠ "AskUserQuestion" →
      env.sessionCacheHit = false → env.configLoad = .error e →
      (mainModel env).output.decision.behavior = .allow ∧
      (mainModel env).exitCode = 0 ∧ (mainModel env).caught = true) ∧
    (∀ (env : HookEnv) (input : HookInput) (cfg : HookConfig) (e : String),
      env.parseInput = .ok input → input.tool_name ≠ "AskUserQuestion" →
      env.sessionCacheHit = false → env.configLoad = .ok cfg →
      env.getInfo = .error e →
      (mainModel env).output.decision.behavior = .allow ∧
      (mainModel env).exitCode = 0 ∧ (mainModel env).caught = true) ∧
    (∀ (env : HookEnv) (input : HookInput) (cfg : HookConfig) (e : String),
      env.parseInput = .ok input → input.tool_name ≠ "AskUserQuestion" →
      env.sessionCacheHit = false → env.configLoad = .ok cfg →
      env.getInfo = .ok () → env.lockAcquire = .error e →
      (mainModel env).output.decision.behavior = .allow ∧
      (mainModel env).exitCode = 0 ∧ (mainModel env).caught = true) ∧
    (∀ (env : HookEnv) (input : HookInput) (cfg : HookConfig) (e : String),
      env.parseInput = .ok input → input.tool_name ≠ "AskUserQuestion" →
      env.sessionCacheHit = false → env.configLoad = .ok cfg →
      env.getInfo = .ok () → env.lockAcquire = .ok () →
      readCascadeState env.cascadeFile REJECT_CASCADE_WINDOW_MS
        env.nowAtCascadeRead = none →
      env.providerResponse = .error e →
      (mainModel env).output.decision.behavior = .allow ∧
      (mainModel env).exitCode = 0 ∧ (mainModel env).caught = true) ∧
    (∀ (env : HookEnv) (input : HookInput) (cfg : HookConfig)
      (r : String) (s : RejectReasonSource) (e : String),
      env.parseInput = .ok input → input.tool_name ≠ "AskUserQuestion" →
      env.sessionCacheHit = false → env.configLoad = .ok cfg →
      env.getInfo = .ok () → env.lockAcquire = .ok () →
      readCascadeState env.cascadeFile REJECT_CASCADE_WINDOW_MS
        env.nowAtCascadeRead = none →
      env.providerResponse = .ok (.reject r s) →
      env.cascadeWrite = .error e →
      (mainModel env).output.decision.behavior = .allow ∧
      (mainModel env).exitCode = 0 ∧ (mainModel env).caught = true) := by
  refine ⟨?_, ?_, ?_, ?_, ?_, ?_⟩
  · intro env e h1
    refine ⟨?_, ?_, ?_⟩ <;> simp [mainModel, h1, failOpen, outputResult]
  · intro env input e h1 h2 h3 h4
    refine ⟨?_, ?_, ?_⟩ <;>
      simp [mainModel, h1, h2, h3, h4, failOpen, outputResult]
  · intro env input cfg e h1 h2 h3 h4 h5
    refine ⟨?_, ?_, ?_⟩ <;>
      simp [mainModel, h1, h2, h3, h4, h5, failOpen, outputResult]
  · intro env input cfg e h1 h2 h3 h4 h5 h6
    refine ⟨?_, ?_, ?_⟩ <;>
      simp [mainModel, h1, h2, h3, h4, h5, h6, failOpen, outputResult]
  · intro env input cfg e h1 h2 h3 h4 h5 h6 h7 h8
    refine ⟨?_, ?_, ?_⟩ <;>
      simp [mainModel, h1, h2, h3, h4, h5, h6, h7, h8, failOpen, outputResult]
  · intro env input cfg r s e h1 h2 h3 h4 h5 h6 h7 h8 h9
    refine ⟨?_, ?_, ?_⟩ <;>
      simp [mainModel, h1, h2, h3, h4, h5, h6, h7, h8, h9, failOpen,
        outputResult]

/-- Witness for C2: six concrete failing environments (unparsable stdin,
missing configuration, provider-info error, lock timeout, decision timeout,
cascade-write failure on a rejection) all emit an `allow` decision and exit
0. -/
theorem claim2_fail_open_witness :
    ((mainModel { baseEnv with parseInput := .error "unexpected token" }
      ).output.decision.behavior = .allow ∧
      (mainModel { baseEnv with parseInput := .error "unexpected token" }
        ).exitCode = 0 ∧
      (mainModel { baseEnv with parseInput := .error "unexpected token" }
        ).caught = true) ∧
    ((mainModel { baseEnv with configLoad := .error "Telegram config missing" }
      ).output.decision.behavior = .allow ∧
      (mainModel { baseEnv with
        configLoad := .error "Telegram config missing" }).exitCode = 0 ∧
      (mainModel { baseEnv with
        configLoad := .error "Telegram config missing" }).caught = true) ∧
    ((mainModel { baseEnv with getInfo := .error "Telegram API error" }
      ).output.decision.behavior = .allow ∧
      (mainModel { baseEnv with getInfo := .error "Telegram API error" }
        ).exitCode = 0 ∧
      (mainModel { baseEnv with getInfo := .error "Telegram API error" }
        ).caught = true) ∧
    ((mainModel { baseEnv with lockAcquire := .error lockTimeoutMsg }
      ).output.decision.behavior = .allow ∧
      (mainModel { baseEnv with lockAcquire := .error lockTimeoutMsg }
        ).exitCode = 0 ∧
      (mainModel { baseEnv with lockAcquire := .error lockTimeoutMsg }
        ).caught = true) ∧
    ((mainModel { baseEnv with providerResponse := .error decisionTimeoutMsg }
      ).output.decision.behavior = .allow ∧
      (mainModel { baseEnv with
        providerResponse := .error decisionTimeoutMsg }).exitCode = 0 ∧
      (mainModel { baseEnv with
        providerResponse := .error decisionTimeoutMsg }).caught = true) ∧
    ((mainModel { rejectEnv with cascadeWrite := .error "EACCES" }
      ).output.decision.behavior = .allow ∧
      (mainModel { rejectEnv with cascadeWrite := .error "EACCES" }
        ).exitCode = 0 ∧
      (mainModel { rejectEnv with cascadeWrite := .error "EACCES" }
        ).caught = true) := by
  refine ⟨?_, ?_, ?_, ?_, ?_, ?_⟩
  · exact claim2_fail_open.1 _ "unexpected token" rfl
  · exact claim2_fail_open.2.1 _ sampleInput "Telegram config missing" rfl
      (by decide) rfl rfl
  · exact claim2_fail_open.2.2.1 _ sampleInput sampleConfig
      "Telegram API error" rfl (by decide) rfl rfl rfl
  · exact claim2_fail_open.2.2.2.1 _ sampleInput sampleConfig lockTimeoutMsg
      rfl (by decide) rfl rfl rfl rfl
  · exact claim2_fail_open.2.2.2.2.1 _ sampleInput sampleConfig
      decisionTimeoutMsg rfl (by decide) rfl rfl rfl rfl rfl rfl
  · exact claim2_fail_open.2.2.2.2.2 _ sampleInput sampleConfig
      "use version 1.0.5" .user_input "EACCES" rfl (by decide) rfl rfl rfl
      rfl rfl rfl rfl

/-- Counterexample to C3: in a concrete negotiation that ends in an operator
rejection, the run is a denial and the log append does precede the
cascade-state write, but the user lock is released *before* the cascade
write (and before the log append), not after both — `releaseLock()` runs in
the `finally` around the provider call, before the rejection branch. -/
theorem claim3_counterexample :
    (mainModel rejectEnv).output.decision.behavior = .deny ∧
    eventBeforeB isLogAttempt isCascadeWritten (mainModel rejectEnv).events =
      true ∧
    eventBeforeB isLockReleased isCascadeWritten (mainModel rejectEnv).events =
      true ∧
    eventBeforeB isCascadeWritten isLockReleased (mainModel rejectEnv).events =
      false := by
  decide

/-- C3 (amended): in every negotiation that ends in an operator rejection,
the rejection-log append happens before the cascade-state write (whether or
not the log write throws), and the user lock is released in a
guaranteed-release block regardless of which branch executed — but the
release happens immediately after the provider call returns, *before* the
log append and the cascade write. -/
theorem claim3_amended_ordering :
    (∀ (env : HookEnv) (input : HookInput) (cfg : HookConfig)
      (r : String) (s : RejectReasonSource),
      env.parseInput = .ok input → input.tool_name ≠ "AskUserQuestion" →
      env.sessionCacheHit = false → env.configLoad = .ok cfg →
      env.getInfo = .ok () → env.lockAcquire = .ok () →
      readCascadeState env.cascadeFile REJECT_CASCADE_WINDOW_MS
        env.nowAtCascadeRead = none →
      env.providerResponse = .ok (.reject r s) → env.cascadeWrite = .ok () →
      eventBeforeB isLogAttempt isCascadeWritten (mainModel env).events =
        true ∧
      eventBeforeB isLockReleased isLogAttempt (mainModel env).events =
        true) ∧
    (∀ (env : HookEnv) (input : HookInput) (cfg : HookConfig),
      env.parseInput = .ok input → input.tool_name ≠ "AskUserQuestion" →
      env.sessionCacheHit = false → env.configLoad = .ok cfg →
      env.getInfo = .ok () → env.lockAcquire = .ok () →
      readCascadeState env.cascadeFile REJECT_CASCADE_WINDOW_MS
        env.nowAtCascadeRead = none →
      .lockReleased ∈ (mainModel env).events) := by
  constructor
  · intro env input cfg r s h1 h2 h3 h4 h5 h6 h7 h8 h9
    cases hl : env.logAppend with
    | ok u =>
      cases u
      constructor <;>
        simp [mainModel, h1, h2, h3, h4, h5, h6, h7, h8, h9, hl, finishRun,
          eventBeforeB, List.findIdx?, isLockReleased, isLogAttempt,
          isCascadeWritten]
    | error e =>
      constructor <;>
        simp [mainModel, h1, h2, h3, h4, h5, h6, h7, h8, h9, hl, finishRun,
          eventBeforeB, List.findIdx?, isLockReleased, isLogAttempt,
          isCascadeWritten]
  · intro env input cfg h1 h2 h3 h4 h5 h6 h7
    cases hp : env.providerResponse with
    | error e => simp [mainModel, h1, h2, h3, h4, h5, h6, h7, hp, failOpen]
    | ok resp =>
      cases resp with
      | approve =>
        simp [mainModel, h1, h2, h3, h4, h5, h6, h7, hp, finishRun]
      | approve_session =>
        simp [mainModel, h1, h2, h3, h4, h5, h6, h7, hp, finishRun]
      | reject r s =>
        cases hl : env.logAppend with
        | ok u =>
          cases u
          cases hw : env.cascadeWrite with
          | error e =>
            simp [mainModel, h1, h2, h3, h4, h5, h6, h7, hp, hl, hw, failOpen]
          | ok v =>
            cases v
            simp [mainModel, h1, h2, h3, h4, h5, h6, h7, hp, hl, hw, finishRun]
        | error e2 =>
          cases hw : env.cascadeWrite with
          | error e =>
            simp [mainModel, h1, h2, h3, h4, h5, h6, h7, hp, hl, hw, failOpen]
          | ok v =>
            cases v
            simp [mainModel, h1, h2, h3, h4, h5, h6, h7, hp, hl, hw, finishRun]

/-- Witness for the amended C3 at concrete runs: an operator rejection with a
successful log write, one with a failing log write, and the guaranteed lock
release on a plain approval run. -/
theorem claim3_amended_ordering_witness :
    (eventBeforeB isLogAttempt isCascadeWritten (mainModel rejectEnv).events =
        true ∧
      eventBeforeB isLockReleased isLogAttempt (mainModel rejectEnv).events =
        true) ∧
    (eventBeforeB isLogAttempt isCascadeWritten
        (mainModel { rejectEnv with logAppend := .error "ENOSPC" }).events =
          true ∧
      eventBeforeB isLockReleased isLogAttempt
        (mainModel { rejectEnv with logAppend := .error "ENOSPC" }).events =
          true) ∧
    .lockReleased ∈ (mainModel baseEnv).events := by
  refine ⟨?_, ?_, ?_⟩
  · exact claim3_amended_ordering.1 rejectEnv sampleInput sampleConfig
      "use version 1.0.5" .user_input rfl (by decide) rfl rfl rfl rfl rfl rfl
      rfl
  · exact claim3_amended_ordering.1 _ sampleInput sampleConfig
      "use version 1.0.5" .user_input rfl (by decide) rfl rfl rfl rfl rfl rfl
      rfl
  · exact claim3_amended_ordering.2 baseEnv sampleInput sampleConfig rfl
      (by decide) rfl rfl rfl rfl rfl

/-- Counterexample to C4: a concrete cascade-resolved rejection. The outcome
is a denial, yet no rejection-log line is appended at all (and no cascade
state is written either) — the cascade branch returns the denial directly,
so "exactly one Rejection Log line per reject outcome, including
cascade-resolved rejects" fails. -/
theorem claim4_counterexample :
    (mainModel cascadeHitEnv).output.decision.behavior = .deny ∧
    (mainModel cascadeHitEnv).events.countP isLogAppended = 0 ∧
    (mainModel cascadeHitEnv).events.countP isCascadeWritten = 0 := by
  decide

/-- C4 (amended): for every negotiation rejected by the operator through the
provider round trip, exactly one rejection-log line is appended when the log
write succeeds — the line built for this very negotiation — and the append
precedes the cascade-state write; when the log write fails, no line is
appended but the cascade write and the deny decision still proceed. A
cascade-resolved reject appends no log line and writes no cascade state. -/
theorem claim4_amended_log_once :
    (∀ (env : HookEnv) (input : HookInput) (cfg : HookConfig)
      (r : String) (s : RejectReasonSource),
      env.parseInput = .ok input → input.tool_name ≠ "AskUserQuestion" →
      env.sessionCacheHit = false → env.configLoad = .ok cfg →
      env.getInfo = .ok () → env.lockAcquire = .ok () →
      readCascadeState env.cascadeFile REJECT_CASCADE_WINDOW_MS
        env.nowAtCascadeRead = none →
      env.providerResponse = .ok (.reject r s) → env.cascadeWrite = .ok () →
      env.logAppend = .ok () →
      (mainModel env).events.countP isLogAppended = 1 ∧
      .logAppended (buildRejectLogLine env.logTimestamp cfg.provider
        (getRequestId input.tool_use_id env.generatedRequestId)
        input.tool_name input.cwd
        (normalizeRejectReason r cfg.rejectReasonMaxChars)
        (resolveReasonSource (normalizeRejectReason r
          cfg.rejectReasonMaxChars) s)) ∈ (mainModel env).events ∧
      eventBeforeB isLogAppended isCascadeWritten (mainModel env).events =
        true) ∧
    (∀ (env : HookEnv) (input : HookInput) (cfg : HookConfig)
      (r : String) (s : RejectReasonSource) (e : String),
      env.parseInput = .ok input → input.tool_name ≠ "AskUserQuestion" →
      env.sessionCacheHit = false → env.configLoad = .ok cfg →
      env.getInfo = .ok () → env.lockAcquire = .ok () →
      readCascadeState env.cascadeFile REJECT_CASCADE_WINDOW_MS
        env.nowAtCascadeRead = none →
      env.providerResponse = .ok (.reject r s) → env.cascadeWrite = .ok () →
      env.logAppend = .error e →
      (mainModel env).events.countP isLogAppended = 0 ∧
      .cascadeWritten (rejectCascadeStateOf env input cfg r s) ∈
        (mainModel env).events ∧
      (mainModel env).output.decision.behavior = .deny) ∧
    (∀ (env : HookEnv) (input : HookInput) (cfg : HookConfig)
      (st : RejectCascadeState),
      env.parseInput = .ok input → input.tool_name ≠ "AskUserQuestion" →
      env.sessionCacheHit = false → env.configLoad = .ok cfg →
      env.getInfo = .ok () → env.lockAcquire = .ok () →
      readCascadeState env.cascadeFile REJECT_CASCADE_WINDOW_MS
        env.nowAtCascadeRead = some st →
      (mainModel env).events.countP isLogAppended = 0 ∧
      (mainModel env).events.countP isCascadeWritten = 0 ∧
      (mainModel env).output.decision.behavior = .deny) := by
  refine ⟨?_, ?_, ?_⟩
  · intro env input cfg r s h1 h2 h3 h4 h5 h6 h7 h8 h9 hl
    refine ⟨?_, ?_, ?_⟩ <;>
      simp [mainModel, h1, h2, h3, h4, h5, h6, h7, h8, h9, hl, finishRun,
        eventBeforeB, List.findIdx?, isLogAppended, isCascadeWritten,
        List.countP, List.countP.go, rejectCascadeStateOf]
  · intro env input cfg r s e h1 h2 h3 h4 h5 h6 h7 h8 h9 hl
    refine ⟨?_, ?_, ?_⟩ <;>
      simp [mainModel, h1, h2, h3, h4, h5, h6, h7, h8, h9, hl, finishRun,
        isLogAppended, List.countP, List.countP.go, rejectCascadeStateOf,
        outputResult]
  · intro env input cfg st h1 h2 h3 h4 h5 h6 h7
    refine ⟨?_, ?_, ?_⟩ <;>
      simp [mainModel, h1, h2, h3, h4, h5, h6, h7, finishRun, isLogAppended,
        isCascadeWritten, List.countP, List.countP.go, outputResult]

/-- Witness for the amended C4 at concrete runs: a successful-log rejection
appends exactly one line before the cascade write; a failing-log rejection
appends none but still writes cascade state and denies; a cascade-resolved
rejection appends none. -/
theorem claim4_amended_log_once_witness :
    ((mainModel rejectEnv).events.countP isLogAppended = 1 ∧
      .logAppended (buildRejectLogLine rejectEnv.logTimestamp
        sampleConfig.provider
        (getRequestId sampleInput.tool_use_id rejectEnv.generatedRequestId)
        sampleInput.tool_name sampleInput.cwd
        (normalizeRejectReason "use version 1.0.5"
          sampleConfig.rejectReasonMaxChars)
        (resolveReasonSource (normalizeRejectReason "use version 1.0.5"
          sampleConfig.rejectReasonMaxChars) .user_input)) ∈
        (mainModel rejectEnv).events ∧
      eventBeforeB isLogAppended isCascadeWritten
        (mainModel rejectEnv).events = true) ∧
    ((mainModel { rejectEnv with logAppend := .error "ENOSPC" }
      ).events.countP isLogAppended = 0 ∧
      .cascadeWritten (rejectCascadeStateOf
        { rejectEnv with logAppend := .error "ENOSPC" } sampleInput
        sampleConfig "use version 1.0.5" .user_input) ∈
        (mainModel { rejectEnv with logAppend := .error "ENOSPC" }).events ∧
      (mainModel { rejectEnv with logAppend := .error "ENOSPC" }
        ).output.decision.behavior = .deny) ∧
    ((mainModel cascadeHitEnv).events.countP isLogAppended = 0 ∧
      (mainModel cascadeHitEnv).events.countP isCascadeWritten = 0 ∧
      (mainModel cascadeHitEnv).output.decision.behavior = .deny) := by
  refine ⟨?_, ?_, ?_⟩
  · exact claim4_amended_log_once.1 rejectEnv sampleInput sampleConfig
      "use version 1.0.5" .user_input rfl (by decide) rfl rfl rfl rfl rfl rfl
      rfl rfl
  · exact claim4_amended_log_once.2.1 _ sampleInput sampleConfig
      "use version 1.0.5" .user_input "ENOSPC" rfl (by decide) rfl rfl rfl
      rfl rfl rfl rfl rfl
  · exact claim4_amended_log_once.2.2 cascadeHitEnv sampleInput sampleConfig
      _ rfl (by decide) rfl rfl rfl rfl rfl

/-- C5: a rejection writes cascade state for the lock key; a negotiation for
the same key that reads that state within the cascade window resolves as a
denial reproducing the stored `reason`/`reasonSource` without the provider
round trip ever being invoked (so no decision prompt is sent); absent or
expired cascade state reads as `none` (no cascade). -/
theorem claim5_cascade_roundtrip :
    (∀ (env : HookEnv) (input : HookInput) (cfg : HookConfig)
      (r : String) (s : RejectReasonSource),
      env.parseInput = .ok input → input.tool_name ≠ "AskUserQuestion" →
      env.sessionCacheHit = false → env.configLoad = .ok cfg →
      env.getInfo = .ok () → env.lockAcquire = .ok () →
      readCascadeState env.cascadeFile REJECT_CASCADE_WINDOW_MS
        env.nowAtCascadeRead = none →
      env.providerResponse = .ok (.reject r s) → env.cascadeWrite = .ok () →
      .cascadeWritten (rejectCascadeStateOf env input cfg r s) ∈
        (mainModel env).events) ∧
    (∀ (env : HookEnv) (input : HookInput) (cfg : HookConfig)
      (st : RejectCascadeState),
      env.parseInput = .ok input → input.tool_name ≠ "AskUserQuestion" →
      env.sessionCacheHit = false → env.configLoad = .ok cfg →
      env.getInfo = .ok () → env.lockAcquire = .ok () →
      env.cascadeFile = writeCascadeState st →
      env.nowAtCascadeRead - st.createdAt ≤ REJECT_CASCADE_WINDOW_MS →
      (mainModel env).output =
        outputResult false
          (some (buildDenyMessage st.reason st.reasonSource)) none none ∧
      (mainModel env).events.countP isProviderInvoked = 0) ∧
    (∀ (windowMs now : Nat), readCascadeState .absent windowMs now = none) ∧
    (∀ (st : RejectCascadeState) (windowMs now : Nat),
      windowMs < now - st.createdAt →
      readCascadeState (writeCascadeState st) windowMs now = none) := by
  refine ⟨?_, ?_, ?_, ?_⟩
  · intro env input cfg r s h1 h2 h3 h4 h5 h6 h7 h8 h9
    cases hl : env.logAppend with
    | ok u =>
      cases u
      simp [mainModel, h1, h2, h3, h4, h5, h6, h7, h8, h9, hl, finishRun,
        rejectCascadeStateOf]
    | error e =>
      simp [mainModel, h1, h2, h3, h4, h5, h6, h7, h8, h9, hl, finishRun,
        rejectCascadeStateOf]
  · intro env input cfg st h1 h2 h3 h4 h5 h6 h7 h8
    have hread : readCascadeState env.cascadeFile REJECT_CASCADE_WINDOW_MS
        env.nowAtCascadeRead = some st := by
      rw [h7]
      simp [readCascadeState, writeCascadeState, Nat.not_lt.mpr h8]
    constructor <;>
      simp [mainModel, h1, h2, h3, h4, h5, h6, hread, finishRun,
        isProviderInvoked, List.countP, List.countP.go]
  · intro windowMs now
    rfl
  · intro st windowMs now h
    simp [readCascadeState, writeCascadeState, h]

/-- Witness for C5: the concrete rejection run writes its cascade state; a
follow-up run two seconds later that reads exactly that state denies with
the reproduced reason and never invokes the provider; the same state read
six seconds after creation (and an absent file) count as no cascade. -/
theorem claim5_cascade_roundtrip_witness :
    (.cascadeWritten (rejectCascadeStateOf rejectEnv sampleInput sampleConfig
      "use version 1.0.5" .user_input) ∈ (mainModel rejectEnv).events) ∧
    ((mainModel { baseEnv with
        cascadeFile := writeCascadeState (rejectCascadeStateOf rejectEnv
          sampleInput sampleConfig "use version 1.0.5" .user_input)
        nowAtCascadeRead := 103000 }).output =
      outputResult false
        (some (buildDenyMessage
          (rejectCascadeStateOf rejectEnv sampleInput sampleConfig
            "use version 1.0.5" .user_input).reason
          (rejectCascadeStateOf rejectEnv sampleInput sampleConfig
            "use version 1.0.5" .user_input).reasonSource)) none none ∧
      (mainModel { baseEnv with
        cascadeFile := writeCascadeState (rejectCascadeStateOf rejectEnv
          sampleInput sampleConfig "use version 1.0.5" .user_input)
        nowAtCascadeRead := 103000 }).events.countP isProviderInvoked = 0) ∧
    readCascadeState .absent REJECT_CASCADE_WINDOW_MS 103000 = none ∧
    readCascadeState (writeCascadeState (rejectCascadeStateOf rejectEnv
      sampleInput sampleConfig "use version 1.0.5" .user_input))
      REJECT_CASCADE_WINDOW_MS 107001 = none := by
  refine ⟨?_, ?_, ?_, ?_⟩
  · exact claim5_cascade_roundtrip.1 rejectEnv sampleInput sampleConfig
      "use version 1.0.5" .user_input rfl (by decide) rfl rfl rfl rfl rfl rfl
      rfl
  · exact claim5_cascade_roundtrip.2.1 _ sampleInput sampleConfig _ rfl
      (by decide) rfl rfl rfl rfl rfl (by decide)
  · exact claim5_cascade_roundtrip.2.2.1 REJECT_CASCADE_WINDOW_MS 103000
  · exact claim5_cascade_roundtrip.2.2.2 _ REJECT_CASCADE_WINDOW_MS 107001
      (by decide)

/-- If no acceptable reason input arrives in any round polled before the wait
bound, the reason wait ends with the empty `timeout` result. -/
theorem waitForRejectReasonTg_no_input (promptMessageId bound : Nat)
    (chatId : String) :
    ∀ rounds, (∀ r ∈ rounds, r.elapsedBefore < bound →
      findReasonInputTg promptMessageId chatId r.updates = none) →
    waitForRejectReasonTg promptMessageId bound chatId rounds =
      ⟨"", .timeout⟩ := by
  intro rounds
  induction rounds with
  | nil => intro _; rfl
  | cons r rest ih =>
    intro h
    unfold waitForRejectReasonTg
    by_cases hg : r.elapsedBefore < bound
    · have hr := h r (List.mem_cons_self r rest) hg
      by_cases ha : bound ≤ r.elapsedAfter
      · simp [hg, hr, ha]
      · simp [hg, hr, ha, ih (fun x hx hb => h x (List.mem_cons_of_mem _ hx) hb)]
    · simp [hg]

/-- C6: the reason-dialog wait bound computed in the reject branch is
`min(configuredReasonTimeout, remaining-time-to-deadline)` — hence at most
the configured reason timeout and at most the remaining time — and a reject
flow in which no input arrives before that bound (input arriving after the
bound is never consumed) produces a rejection with `reasonSource = timeout`
and an empty reason. -/
theorem claim6_reason_wait_bound :
    (∀ (rejectReasonTimeoutMs timeoutMs elapsed : Nat),
      effectiveReasonWait rejectReasonTimeoutMs timeoutMs elapsed =
        min rejectReasonTimeoutMs (timeoutMs - elapsed) ∧
      effectiveReasonWait rejectReasonTimeoutMs timeoutMs elapsed ≤
        rejectReasonTimeoutMs ∧
      effectiveReasonWait rejectReasonTimeoutMs timeoutMs elapsed ≤
        timeoutMs - elapsed) ∧
    (∀ (configChatId permissionChatId : String)
      (rejectReasonTimeoutMs timeoutMs elapsed : Nat)
      (renv : TgReasonEnv) (promptId : Nat),
      renv.promptSendPrimary = some promptId →
      (∀ r ∈ renv.reasonRounds,
        r.elapsedBefore <
          effectiveReasonWait rejectReasonTimeoutMs timeoutMs elapsed →
        findReasonInputTg promptId
          (resolveRejectReasonChatId configChatId permissionChatId)
          r.updates = none) →
      telegramRejectFlow configChatId permissionChatId rejectReasonTimeoutMs
        timeoutMs elapsed renv = .reject "" .timeout) := by
  constructor
  · intro a b c
    exact ⟨rfl, Nat.min_le_left _ _, Nat.min_le_right _ _⟩
  · intro configChatId permissionChatId conf t e renv promptId hp h
    unfold telegramRejectFlow
    rw [hp]
    by_cases hw : 0 < effectiveReasonWait conf t e
    · simp only [hw, if_pos]
      rw [waitForRejectReasonTg_no_input promptId
        (effectiveReasonWait conf t e)
        (resolveRejectReasonChatId configChatId permissionChatId)
        renv.reasonRounds h]
    · simp only [hw, if_neg, if_false]

/-- Witness for C6, the spec's concrete scenario: a 1000 ms configured reason
timeout with only 500 ms of deadline remaining (deadline 10000 ms, reject at
9500 ms) bounds the reason wait to 500 ms; a typed reason arriving at 600 ms
is not consumed, and the flow rejects with `reasonSource = timeout`. -/
theorem claim6_reason_wait_bound_witness :
    effectiveReasonWait 1000 10000 9500 = min 1000 (10000 - 9500) ∧
    effectiveReasonWait 1000 10000 9500 ≤ 1000 ∧
    effectiveReasonWait 1000 10000 9500 ≤ 10000 - 9500 ∧
    effectiveReasonWait 1000 10000 9500 = 500 ∧
    telegramRejectFlow "42" "42" 1000 10000 9500
      { promptSendPrimary := some 8, promptSendFallback := none
        reasonRounds :=
          [{ elapsedBefore := 600
             updates := [.message "42" 9 "late reason" true false]
             elapsedAfter := 700 }] } = .reject "" .timeout := by
  have h := claim6_reason_wait_bound
  refine ⟨(h.1 1000 10000 9500).1, (h.1 1000 10000 9500).2.1,
    (h.1 1000 10000 9500).2.2, by decide, ?_⟩
  exact h.2 "42" "42" 1000 10000 9500 _ 8 rfl
    (by
      intro r hr hlt
      rw [List.mem_singleton.mp hr] at hlt
      exact absurd hlt (by decide))

set_option maxRecDepth 8192

/-- C7: the value persisted to the rejection log is `maskSensitiveText` of
the reason (with decision `deny`); the partial mask keeps the first 4 and
last 4 characters around an elided middle, or replaces the whole value with
the fixed `***` marker when it is at most 8 characters; the deny message
returned to the caller carries the same reason verbatim (unmasked); and on
the spec's example the persisted reason masks the 32-character token value
while a bare 32-character hex run is masked as a long-token run. -/
theorem claim7_log_masked_deny_unmasked :
    (∀ (ts prov rid tn cwd reason : String) (src : RejectReasonSource),
      (buildRejectLogLine ts prov rid tn cwd reason src).reason =
        maskSensitiveText reason ∧
      (buildRejectLogLine ts prov rid tn cwd reason src).decision = "deny") ∧
    (∀ tok : String,
      (tok.length ≤ 8 → maskToken tok = "***") ∧
      (8 < tok.length →
        maskToken tok = tok.take 4 ++ "..." ++ tok.drop (tok.length - 4))) ∧
    (∀ reason : String, reason.length ≠ 0 →
      buildDenyMessage reason .user_input =
        "User rejected the request. Reason: " ++ reason) ∧
    (maskSensitiveText "token=abcdef1234567890abcdef1234567890" =
      "token=abcd...7890" ∧
     maskSensitiveText "run deadbeefdeadbeefdeadbeefdeadbeef here" =
      "run dead...beef here" ∧
     buildDenyMessage "token=abcdef1234567890abcdef1234567890" .user_input =
      "User rejected the request. Reason: " ++
        "token=abcdef1234567890abcdef1234567890") := by
  refine ⟨?_, ?_, ?_, ?_⟩
  · intro ts prov rid tn cwd reason src
    exact ⟨rfl, rfl⟩
  · intro tok
    constructor
    · intro h
      simp [maskToken, h]
    · intro h
      simp [maskToken, Nat.not_le.mpr h]
  · intro reason h
    simp [buildDenyMessage, h]
  · refine ⟨by decide, by decide, by decide⟩

/-- Witness for C7 at the spec's example token: the log line persists the
masked reason, the mask keeps `abcd...7890`, short values collapse to `***`,
and the deny message keeps the reason unmasked. -/
theorem claim7_log_masked_deny_unmasked_witness :
    (buildRejectLogLine "2026-02-03T04:05:06.000Z" "telegram" "toolu_01"
      "Bash" "/repo" "token=abcdef1234567890abcdef1234567890"
      .user_input).reason =
      maskSensitiveText "token=abcdef1234567890abcdef1234567890" ∧
    maskToken "hunter2" = "***" ∧
    maskToken "abcdef1234567890abcdef1234567890" =
      "abcdef1234567890abcdef1234567890".take 4 ++ "..." ++
        "abcdef1234567890abcdef1234567890".drop
          ("abcdef1234567890abcdef1234567890".length - 4) ∧
    buildDenyMessage "token=abcdef1234567890abcdef1234567890" .user_input =
      "User rejected the request. Reason: " ++
        "token=abcdef1234567890abcdef1234567890" := by
  refine ⟨?_, ?_, ?_, ?_⟩
  · exact (claim7_log_masked_deny_unmasked.1 "2026-02-03T04:05:06.000Z"
      "telegram" "toolu_01" "Bash" "/repo"
      "token=abcdef1234567890abcdef1234567890" .user_input).1
  · exact (claim7_log_masked_deny_unmasked.2.1 "hunter2").1 (by decide)
  · exact (claim7_log_masked_deny_unmasked.2.1
      "abcdef1234567890abcdef1234567890").2 (by decide)
  · exact claim7_log_masked_deny_unmasked.2.2.1
      "token=abcdef1234567890abcdef1234567890" (by decide)

/-- A rename leaves every other generation untouched. -/
theorem renameGen_of_ne (fs : LogFs) (src dst i : Nat) (h1 : i ≠ src)
    (h2 : i ≠ dst) : renameGen fs src dst i = fs i := by
  unfold renameGen
  cases hc : fs src with
  | some c => simp [h1, h2]
  | none => rfl

/-- A rename vacates its source generation. -/
theorem renameGen_src_none (fs : LogFs) (src dst : Nat) (h : src ≠ dst) :
    renameGen fs src dst src = none := by
  unfold renameGen
  cases hc : fs src with
  | some c => simp [h]
  | none => exact hc

/-- A rename onto an empty destination moves exactly the source contents
(also when the source is absent). -/
theorem renameGen_dst_total (fs : LogFs) (src dst : Nat)
    (hd : fs dst = none) : renameGen fs src dst dst = fs src := by
  unfold renameGen
  cases hc : fs src with
  | some c => simp [hc]
  | none => exact hd

/-- Characterization of the descending rename loop: with generation `k + 1`
initially empty, every generation `1..k` moves up by one, generation 1 is
vacated, and the active file and generations beyond `k + 1` are untouched. -/
theorem shiftGens_spec :
    ∀ (k : Nat) (fs : LogFs), fs (k + 1) = none →
      (∀ i, 1 ≤ i → i ≤ k → shiftGens fs k (i + 1) = fs i) ∧
      shiftGens fs k 1 = none ∧
      shiftGens fs k 0 = fs 0 ∧
      (∀ j, k + 1 < j → shiftGens fs k j = fs j) := by
  intro k
  induction k with
  | zero =>
    intro fs h
    exact ⟨fun i h1 h2 => absurd (Nat.le_trans h1 h2) (by omega), h, rfl,
      fun j _ => rfl⟩
  | succ n ih =>
    intro fs h
    have h' : renameGen fs (n + 1) (n + 2) (n + 1) = none :=
      renameGen_src_none fs (n + 1) (n + 2) (by omega)
    obtain ⟨ih1, ih2, ih3, ih4⟩ := ih (renameGen fs (n + 1) (n + 2)) h'
    have hstep : shiftGens fs (n + 1) =
        shiftGens (renameGen fs (n + 1) (n + 2)) n := rfl
    refine ⟨?_, ?_, ?_, ?_⟩
    · intro i h1 h2
      rw [hstep]
      rcases Nat.lt_or_ge i (n + 1) with hlt | hge
      · rw [ih1 i h1 (by omega)]
        exact renameGen_of_ne fs (n + 1) (n + 2) i (by omega) (by omega)
      · have hi : i = n + 1 := by omega
        subst hi
        rw [ih4 (n + 1 + 1) (by omega)]
        exact renameGen_dst_total fs (n + 1) (n + 2) h
    · rw [hstep]
      exact ih2
    · rw [hstep, ih3]
      exact renameGen_of_ne fs (n + 1) (n + 2) 0 (by omega) (by omega)
    · intro j hj
      rw [hstep, ih4 j (by omega)]
      exact renameGen_of_ne fs (n + 1) (n + 2) j (by omega) (by omega)

/-- C8: when an append finds the active file larger than `rotateBytes`:
with `maxFiles ≤ 0` the active file is truncated and receives only the new
line, everything else untouched; with `maxFiles > 0` the rotated generations
shift up by one (the generation that would exceed `maxFiles` being deleted),
the old active file becomes generation 1, generations beyond `maxFiles` are
untouched, and the new line lands alone in a fresh active file — so the
whole rotation happened before the append. -/
theorem claim8_rotation :
    ∀ (fs : LogFs) (rotateBytes maxFiles : Int) (line : String)
      (lines : List String),
      fs 0 = some lines → rotateBytes < (fileSizeOf lines : Int) →
      ((maxFiles ≤ 0 →
        appendRejectLogFs fs rotateBytes maxFiles line 0 = some [line] ∧
        (∀ i, 0 < i →
          appendRejectLogFs fs rotateBytes maxFiles line i = fs i)) ∧
      (0 < maxFiles →
        appendRejectLogFs fs rotateBytes maxFiles line 0 = some [line] ∧
        appendRejectLogFs fs rotateBytes maxFiles line 1 = some lines ∧
        (∀ i, 1 ≤ i → i < maxFiles.toNat →
          appendRejectLogFs fs rotateBytes maxFiles line (i + 1) = fs i) ∧
        (∀ j, maxFiles.toNat < j →
          appendRejectLogFs fs rotateBytes maxFiles line j = fs j))) := by
  intro fs rotateBytes maxFiles line lines h0 hsize
  have hno : ¬ ((fileSizeOf lines : Int) ≤ rotateBytes) := Int.not_le.mpr hsize
  constructor
  · intro hm
    have hrot : rotateRejectLogIfNeeded fs rotateBytes maxFiles =
        fun i => if i = 0 then some [] else fs i := by
      unfold rotateRejectLogIfNeeded
      rw [h0]
      simp [hno, hm]
    constructor
    · simp [appendRejectLogFs, hrot]
    · intro i hi
      simp [appendRejectLogFs, hrot, Nat.pos_iff_ne_zero.mp hi]
  · intro hm
    have hmn : ¬ (maxFiles ≤ 0) := Int.not_le.mpr hm
    have hm1 : 1 ≤ maxFiles.toNat := by omega
    have hrot : rotateRejectLogIfNeeded fs rotateBytes maxFiles =
        renameGen (shiftGens (deleteGen fs maxFiles.toNat)
          (maxFiles.toNat - 1)) 0 1 := by
      unfold rotateRejectLogIfNeeded
      rw [h0]
      simp [hno, hmn]
    have hdel : deleteGen fs maxFiles.toNat ((maxFiles.toNat - 1) + 1) =
        none := by
      have : (maxFiles.toNat - 1) + 1 = maxFiles.toNat := by omega
      rw [this]
      simp [deleteGen]
    obtain ⟨s1, s2, s3, s4⟩ :=
      shiftGens_spec (maxFiles.toNat - 1) (deleteGen fs maxFiles.toNat) hdel
    have hsh0 : shiftGens (deleteGen fs maxFiles.toNat)
        (maxFiles.toNat - 1) 0 = some lines := by
      rw [s3]
      have hne : ¬ (0 = maxFiles.toNat) := by omega
      simp [deleteGen, hne, h0]
    refine ⟨?_, ?_, ?_, ?_⟩
    · have : renameGen (shiftGens (deleteGen fs maxFiles.toNat)
          (maxFiles.toNat - 1)) 0 1 0 = none := by
        rw [renameGen_src_none _ 0 1 (by omega)]
      simp [appendRejectLogFs, hrot, this]
    · have h1 : renameGen (shiftGens (deleteGen fs maxFiles.toNat)
          (maxFiles.toNat - 1)) 0 1 1 = some lines := by
        rw [renameGen_dst_total _ 0 1 s2, hsh0]
      simp [appendRejectLogFs, hrot, h1]
    · intro i hi1 hi2
      have hfin : renameGen (shiftGens (deleteGen fs maxFiles.toNat)
          (maxFiles.toNat - 1)) 0 1 (i + 1) =
          shiftGens (deleteGen fs maxFiles.toNat) (maxFiles.toNat - 1)
            (i + 1) := renameGen_of_ne _ 0 1 (i + 1) (by omega) (by omega)
      have hsi : shiftGens (deleteGen fs maxFiles.toNat)
          (maxFiles.toNat - 1) (i + 1) = deleteGen fs maxFiles.toNat i :=
        s1 i hi1 (by omega)
      have hdi : deleteGen fs maxFiles.toNat i = fs i := by
        unfold deleteGen
        rw [if_neg (by omega : ¬ i = maxFiles.toNat)]
      simp [appendRejectLogFs, hrot, hfin, hsi, hdi]
    · intro j hj
      have hfin : renameGen (shiftGens (deleteGen fs maxFiles.toNat)
          (maxFiles.toNat - 1)) 0 1 j =
          shiftGens (deleteGen fs maxFiles.toNat) (maxFiles.toNat - 1) j :=
        renameGen_of_ne _ 0 1 j (by omega) (by omega)
      have hsj : shiftGens (deleteGen fs maxFiles.toNat)
          (maxFiles.toNat - 1) j = deleteGen fs maxFiles.toNat j :=
        s4 j (by omega)
      have hdj : deleteGen fs maxFiles.toNat j = fs j := by
        unfold deleteGen
        rw [if_neg (by omega : ¬ j = maxFiles.toNat)]
      simp only [appendRejectLogFs]
      rw [if_neg (by omega : ¬ j = 0), hrot, hfin, hsj, hdj]

/-- Witness for C8 on a concrete directory (active file of 14 bytes, two
rotated generations, threshold 5 bytes): with retention 2 the new line lands
alone in the fresh active file, the old active file becomes generation 1 and
generation 1 becomes generation 2 (the old generation 2 being deleted); with
retention 0 the active file is truncated and keeps only the new line. -/
theorem claim8_rotation_witness :
    (appendRejectLogFs sampleLogFs 5 2 "new" 0 = some ["new"] ∧
     appendRejectLogFs sampleLogFs 5 2 "new" 1 = some ["line-a", "line-b"] ∧
     (∀ i, 1 ≤ i → i < (2 : Int).toNat →
       appendRejectLogFs sampleLogFs 5 2 "new" (i + 1) = sampleLogFs i) ∧
     (∀ j, (2 : Int).toNat < j →
       appendRejectLogFs sampleLogFs 5 2 "new" j = sampleLogFs j)) ∧
    (appendRejectLogFs sampleLogFs 5 0 "new" 0 = some ["new"] ∧
     (∀ i, 0 < i →
       appendRejectLogFs sampleLogFs 5 0 "new" i = sampleLogFs i)) := by
  constructor
  · exact (claim8_rotation sampleLogFs 5 2 "new" ["line-a", "line-b"] rfl
      (by decide)).2 (by decide)
  · exact (claim8_rotation sampleLogFs 5 0 "new" ["line-a", "line-b"] rfl
      (by decide)).1 (by decide)

/-- If the token can be created exclusively at tick `j` (within the wait
bound) and every earlier tick saw it held or failed to stat it, the
acquisition loop succeeds exactly at tick `j`. -/
theorem acquireLoop_free_at (env : Nat → LockTickObs) (t j : Nat)
    (hj : 200 * j < t) (hfree : env j = .free)
    (hbefore : ∀ k, k < j → (∃ a, env k = .held a) ∨ env k = .statError) :
    ∀ fuel i, i ≤ j → j < i + fuel → (acquireLoop env t fuel i).1 = .ok j := by
  intro fuel
  induction fuel with
  | zero => intro i hi hlt; omega
  | succ n ih =>
    intro i hi hlt
    unfold acquireLoop
    rcases Nat.lt_or_ge i j with hij | hij
    · have hg : 200 * i < t := by omega
      rcases hbefore i hij with ⟨a, ha⟩ | ha
      · by_cases hs : t < a
        · simp [hg, ha, hs, ih (i + 1) (by omega) (by omega)]
        · simp [hg, ha, hs, ih (i + 1) (by omega) (by omega)]
      · simp [hg, ha, ih (i + 1) (by omega) (by omega)]
    · have hij' : i = j := by omega
      subst hij'
      simp [hj, hfree]

/-- A tick that observes a stale token (age beyond the wait bound) appears in
the removal trace, provided every earlier tick saw a held token or a failing
stat. -/
theorem acquireLoop_stale_in_trace (env : Nat → LockTickObs) (t i age : Nat)
    (hg : 200 * i < t) (hi : env i = .held age) (hstale : t < age)
    (hbefore : ∀ k, k < i → (∃ a, env k = .held a) ∨ env k = .statError) :
    ∀ fuel i0, i0 ≤ i → i < i0 + fuel →
      i ∈ (acquireLoop env t fuel i0).2 := by
  intro fuel
  induction fuel with
  | zero => intro i0 h1 h2; omega
  | succ n ih =>
    intro i0 h1 h2
    unfold acquireLoop
    rcases Nat.lt_or_ge i0 i with hij | hij
    · have hg0 : 200 * i0 < t := by omega
      rcases hbefore i0 hij with ⟨a, ha⟩ | ha
      · by_cases hs : t < a
        · simp only [hg0, if_pos, ha]
          simp [hs]
          right
          exact ih (i0 + 1) (by omega) (by omega)
        · simp only [hg0, if_pos, ha]
          simp [hs]
          exact ih (i0 + 1) (by omega) (by omega)
      · simp [hg0, ha, ih (i0 + 1) (by omega) (by omega)]
    · have hij' : i0 = i := by omega
      subst hij'
      simp [hg, hi, hstale]

/-- Every tick recorded in the removal trace observed a stale token: only
tokens whose age exceeds the caller's timeout are force-removed. -/
theorem acquireLoop_trace_only_stale (env : Nat → LockTickObs) (t : Nat) :
    ∀ fuel i0 x, x ∈ (acquireLoop env t fuel i0).2 →
      ∃ a, env x = .held a ∧ t < a := by
  intro fuel
  induction fuel with
  | zero => intro i0 x hx; simp [acquireLoop] at hx
  | succ n ih =>
    intro i0 x hx
    unfold acquireLoop at hx
    by_cases hg : 200 * i0 < t
    · cases hobs : env i0 with
      | free => simp [hg, hobs] at hx
      | writeError m => simp [hg, hobs] at hx
      | statError =>
        simp only [hg, if_pos, hobs] at hx
        exact ih (i0 + 1) x hx
      | held a =>
        by_cases hs : t < a
        · simp only [hg, if_pos, hobs, hs, if_true] at hx
          rcases List.mem_cons.mp hx with hx0 | hx'
          · subst hx0
            exact ⟨a, hobs, hs⟩
          · exact ih (i0 + 1) x hx'
        · simp only [hg, if_pos, hobs, hs, if_false] at hx
          exact ih (i0 + 1) x hx
    · simp [hg] at hx

/-- C9: the user-lock contract. Acquisition polls at a fixed 200 ms interval:
it succeeds at the first tick where the token can be created exclusively
(earlier ticks having seen a holder or a stat failure), and raises the
lock-timeout error when every tick within the bound sees a holder; a token
whose age exceeds the caller's timeout is treated as stale and force-removed
(and only such tokens are ever removed); the release callback never
propagates the unlink failure (the unlink of an absent token does fail) and
invoking it repeatedly is harmless. -/
theorem claim9_user_lock_contract :
    (∀ (env : Nat → LockTickObs) (t j : Nat),
      200 * j < t → env j = .free →
      (∀ k, k < j → (∃ a, env k = .held a) ∨ env k = .statError) →
      (acquireUserLockModel env t).1 = .ok j) ∧
    (∀ (env : Nat → LockTickObs) (t : Nat),
      (∀ i, 200 * i < t → (∃ a, env i = .held a) ∨ env i = .statError) →
      (acquireUserLockModel env t).1 = .error lockTimeoutMsg) ∧
    (∀ (env : Nat → LockTickObs) (t i age : Nat),
      200 * i < t → env i = .held age → t < age →
      (∀ k, k < i → (∃ a, env k = .held a) ∨ env k = .statError) →
      i ∈ (acquireUserLockModel env t).2) ∧
    (∀ (env : Nat → LockTickObs) (t : Nat),
      ∀ x ∈ (acquireUserLockModel env t).2,
        ∃ a, env x = .held a ∧ t < a) ∧
    (unlinkLockToken none = .error "ENOENT" ∧
      (∀ w : Option Nat, releaseUserLock (releaseUserLock w) =
        releaseUserLock w) ∧
      releaseUserLock none = none) := by
  refine ⟨?_, ?_, ?_, ?_, rfl, ?_, rfl⟩
  · intro env t j hj hfree hbefore
    exact acquireLoop_free_at env t j hj hfree hbefore _ 0 (Nat.zero_le j)
      (by omega)
  · intro env t h
    exact acquireLoop_held_is_timeout env t h _ 0
  · intro env t i age hg hi hstale hbefore
    exact acquireLoop_stale_in_trace env t i age hg hi hstale hbefore _ 0
      (Nat.zero_le i) (by omega)
  · intro env t x hx
    exact acquireLoop_trace_only_stale env t _ 0 x hx
  · intro w
    cases w <;> rfl

/-- Witness for C9 at concrete lock environments: two busy ticks then a free
slot succeed at tick 2; a permanently held lock times out; a stale token at
tick 0 is force-removed, and every removal in that run is of a stale token;
releasing twice equals releasing once and releasing an absent token is a
swallowed no-op. -/
theorem claim9_user_lock_contract_witness :
    (acquireUserLockModel
      (fun i => if i < 2 then LockTickObs.held 50 else .free) 1000).1 =
      .ok 2 ∧
    (acquireUserLockModel (fun _ => LockTickObs.held 100) 1000).1 =
      .error lockTimeoutMsg ∧
    0 ∈ (acquireUserLockModel
      (fun i => if i = 0 then LockTickObs.held 5000 else .free) 1000).2 ∧
    (∀ x ∈ (acquireUserLockModel
      (fun i => if i = 0 then LockTickObs.held 5000 else .free) 1000).2,
      ∃ a, (fun i => if i = 0 then LockTickObs.held 5000 else .free) x =
        .held a ∧ 1000 < a) ∧
    releaseUserLock (releaseUserLock (some 7)) = releaseUserLock (some 7) ∧
    releaseUserLock none = none := by
  refine ⟨?_, ?_, ?_, ?_, ?_, ?_⟩
  · exact claim9_user_lock_contract.1 _ 1000 2 (by decide) rfl
      (fun k hk => Or.inl ⟨50, by rw [if_pos hk]⟩)
  · exact claim9_user_lock_contract.2.1 _ 1000
      (fun i _ => Or.inl ⟨100, rfl⟩)
  · exact claim9_user_lock_contract.2.2.1 _ 1000 0 5000 (by decide) rfl
      (by decide) (fun k hk => absurd hk (by omega))
  · exact claim9_user_lock_contract.2.2.2.1 _ 1000
  · exact (claim9_user_lock_contract.2.2.2.2.2.1) (some 7)
  · exact claim9_user_lock_contract.2.2.2.2.2.2

/-- Counterexample to C10: in a Telegram negotiation that reaches the reason
prompt, a typed reason exactly equal to the default configured no-reason
keyword `no_reason` is classified `user_input` — not `explicit_skip` — and
the hook then keeps `user_input` with the non-empty persisted reason
`no_reason`: the Telegram provider performs no keyword comparison at all. -/
theorem claim10_counterexample :
    waitForRejectReasonTg 10 60000 "42"
      [{ elapsedBefore := 0
         updates := [.message "42" 11 "no_reason" true false]
         elapsedAfter := 100 }] = ⟨"no_reason", .user_input⟩ ∧
    resolveReasonSource (normalizeRejectReason "no_reason" 300) .user_input =
      .user_input ∧
    normalizeRejectReason "no_reason" 300 = "no_reason" := by
  decide

/-- C10 (amended): only the Discord provider compares the typed reason
against the configured no-reason keywords — trimmed and lowercased on both
sides — classifying a match as `explicit_skip` with an empty persisted
reason, for every configured keyword; the Telegram provider performs no
keyword comparison, classifying any typed text (a configured keyword
included) as `user_input`, its explicit skip being available only through
the skip button. -/
theorem claim10_amended_keyword_skip :
    (∀ (t : Nat) (uid : String) (kws : List String) (m : DcMessage)
      (rest : List DcMessage) (rounds : List DcReasonRound)
      (elapsedB elapsedA : Nat),
      elapsedB < t → m.authorId = uid →
      (∃ kw ∈ kws, normalizeKeyword (trimStr m.content) = normalizeKeyword kw) →
      waitForRejectReasonDc t uid kws
        ({ elapsedBefore := elapsedB, fetch := .ok (m :: rest)
           elapsedAfter := elapsedA } :: rounds) = ⟨"", .explicit_skip⟩) ∧
    (∀ (promptMessageId bound : Nat) (chatId text : String)
      (mId : Nat) (mentioned : Bool) (rest : List TgRound)
      (elapsedB elapsedA : Nat),
      elapsedB < bound → promptMessageId < mId →
      waitForRejectReasonTg promptMessageId bound chatId
        ({ elapsedBefore := elapsedB
           updates := [.message chatId mId text true mentioned]
           elapsedAfter := elapsedA } :: rest) = ⟨text, .user_input⟩) := by
  constructor
  · intro t uid kws m rest rounds elapsedB elapsedA hg hauth hkw
    have hmem : normalizeKeyword (trimStr m.content) ∈ kws.map normalizeKeyword := by
      rcases hkw with ⟨kw, hkwmem, hkweq⟩
      exact List.mem_map.mpr ⟨kw, hkwmem, hkweq.symm⟩
    unfold waitForRejectReasonDc
    simp only [hg, if_pos]
    unfold findReasonInputDc
    simp [hauth, hmem]
  · intro promptMessageId bound chatId text mId mentioned rest elapsedB
      elapsedA hg hm
    unfold waitForRejectReasonTg
    simp only [hg, if_pos]
    unfold findReasonInputTg
    simp [Nat.not_le.mpr hm]

/-- Witness for the amended C10: on Discord, the rejecting user typing
`"  No_Reason "` against the default keyword list `["no_reason"]` confirms
an explicit skip with an empty reason; on Telegram, typing exactly
`"no_reason"` yields a `user_input` classification carrying that text. -/
theorem claim10_amended_keyword_skip_witness :
    waitForRejectReasonDc 60000 "u1" ["no_reason"]
      [{ elapsedBefore := 0
         fetch := .ok [{ authorId := "u1", content := "  No_Reason " }]
         elapsedAfter := 100 }] = ⟨"", .explicit_skip⟩ ∧
    waitForRejectReasonTg 10 60000 "42"
      [{ elapsedBefore := 0
         updates := [.message "42" 11 "no_reason" true false]
         elapsedAfter := 100 }] = ⟨"no_reason", .user_input⟩ := by
  constructor
  · exact claim10_amended_keyword_skip.1 60000 "u1" ["no_reason"]
      { authorId := "u1", content := "  No_Reason " } [] [] 0 100 (by decide)
      rfl ⟨"no_reason", List.mem_singleton.mpr rfl, by decide⟩
  · exact claim10_amended_keyword_skip.2 10 60000 "42" "no_reason" 11 false
      [] 0 100 (by decide) (by decide)
